import Mathlib

/-!
Shallow embedding of the core logic of the Digital Twin dashboard
repository: the rule-based risk classifier `predict_wear_and_status`
and the synthetic wear-series generator `generate_simulation_data`
from `app.py`, and the prediction-input column construction of
`pages/1_Digital_Twin_Dashboard.py`.  Python floats are modelled as
rationals, and Python `round` as round-half-to-even on decimal
digits.
-/

namespace DigitalTwin

/-- Critical under-inflation threshold (PSI), from `app.py`. -/
def WEAR_THRESHOLD_PRESSURE : ℚ := 28

/-- Critical over-inflation threshold (PSI), from `app.py`. -/
def OVERPRESSURE_THRESHOLD : ℚ := 38

/-- Early-warning under-inflation threshold (PSI), from `app.py`. -/
def PRESSURE_ALERT_THRESHOLD : ℚ := 29

/-- Early-warning over-inflation threshold (PSI), from `app.py`. -/
def OVERPRESSURE_ALERT : ℚ := 36

/-- High-mileage threshold (km), from `app.py`. -/
def HIGH_MILEAGE_THRESHOLD : ℚ := 40000

/-- Early-warning mileage threshold (km), from `app.py`. -/
def MILEAGE_ALERT_THRESHOLD : ℚ := 35000

/-- Critical temperature threshold (°C), from `app.py`. -/
def CRITICAL_TEMP_THRESHOLD : ℚ := 85

/-- Warning temperature threshold (°C), from `app.py`. -/
def TEMP_ALERT_THRESHOLD : ℚ := 75

/-- Pressure block of `predict_wear_and_status`: the risk points added
and the critical-issue strings appended for the pressure reading
(the if/elif chain at `app.py` lines 46-55). -/
def pressureAnalysis (pressure : ℚ) : ℕ × List String :=
  if pressure < WEAR_THRESHOLD_PRESSURE then
    (3, ["CRITICAL UNDER-INFLATION"])
  else if OVERPRESSURE_THRESHOLD < pressure then
    (3, ["CRITICAL OVER-INFLATION - BLOWOUT RISK"])
  else if pressure < PRESSURE_ALERT_THRESHOLD then
    (2, [])
  else if OVERPRESSURE_ALERT < pressure then
    (2, [])
  else
    (0, [])

/-- Mileage block of `predict_wear_and_status` (`app.py` lines 58-62). -/
def mileageAnalysis (mileage : ℚ) : ℕ × List String :=
  if HIGH_MILEAGE_THRESHOLD < mileage then
    (2, ["END OF SERVICE LIFE"])
  else if MILEAGE_ALERT_THRESHOLD < mileage then
    (1, [])
  else
    (0, [])

/-- Temperature block of `predict_wear_and_status` (`app.py` lines 65-69). -/
def tempAnalysis (temp : ℚ) : ℕ × List String :=
  if CRITICAL_TEMP_THRESHOLD < temp then
    (3, ["CRITICAL TEMPERATURE - RUBBER DEGRADATION"])
  else if TEMP_ALERT_THRESHOLD < temp then
    (2, [])
  else
    (0, [])

/-- The classifier `predict_wear_and_status` of `app.py`: accumulates
risk points and critical-issue strings over the three readings and
buckets the total into four (label, color, icon) results.  The inner
test mirrors Python's `"BLOWOUT RISK" in critical_issues`, which on a
list is an exact element-membership test. -/
def predict_wear_and_status (pressure mileage temp : ℚ) : String × String × String :=
  let risk_factors :=
    (pressureAnalysis pressure).1 + (mileageAnalysis mileage).1 + (tempAnalysis temp).1
  let critical_issues :=
    (pressureAnalysis pressure).2 ++ (mileageAnalysis mileage).2 ++ (tempAnalysis temp).2
  if 6 ≤ risk_factors ∨ critical_issues ≠ [] then
    if "BLOWOUT RISK" ∈ critical_issues ∨ "RUBBER DEGRADATION" ∈ critical_issues then
      ("CRITICAL: IMMINENT FAILURE RISK", "red", "🛑")
    else
      ("CRITICAL: MULTIPLE FAILURE FACTORS", "red", "🚨")
  else if 4 ≤ risk_factors then
    ("HIGH RISK: MAINTENANCE REQUIRED", "orange", "⚠️")
  else if 2 ≤ risk_factors then
    ("WARNING: ELEVATED RISK", "yellow", "🔶")
  else
    ("NORMAL OPERATING STATE", "green", "✅")

/-- Ordering of the four status colors as severity tiers
(green < yellow < orange < red), as in the spec's glossary. -/
def severityTier (color : String) : ℕ :=
  if color = "green" then 0
  else if color = "yellow" then 1
  else if color = "orange" then 2
  else 3

lemma severityTier_le_three (color : String) : severityTier color ≤ 3 := by
  unfold severityTier
  split_ifs <;> omega

lemma pressureAnalysis_under (p : ℚ) (h : p < WEAR_THRESHOLD_PRESSURE) :
    pressureAnalysis p = (3, ["CRITICAL UNDER-INFLATION"]) := by
  unfold pressureAnalysis
  rw [if_pos h]

lemma pressureAnalysis_over (p : ℚ) (h : OVERPRESSURE_THRESHOLD < p) :
    pressureAnalysis p = (3, ["CRITICAL OVER-INFLATION - BLOWOUT RISK"]) := by
  have h1 : ¬ p < WEAR_THRESHOLD_PRESSURE := by
    simp only [WEAR_THRESHOLD_PRESSURE, OVERPRESSURE_THRESHOLD] at h ⊢
    linarith
  unfold pressureAnalysis
  rw [if_neg h1, if_pos h]

lemma pressureAnalysis_nominal (p : ℚ)
    (h1 : PRESSURE_ALERT_THRESHOLD ≤ p) (h2 : p ≤ OVERPRESSURE_ALERT) :
    pressureAnalysis p = (0, []) := by
  simp only [PRESSURE_ALERT_THRESHOLD, OVERPRESSURE_ALERT] at h1 h2
  unfold pressureAnalysis
  rw [if_neg (by simp only [WEAR_THRESHOLD_PRESSURE]; linarith),
     if_neg (by simp only [OVERPRESSURE_THRESHOLD]; push_neg; linarith),
     if_neg (by simp only [PRESSURE_ALERT_THRESHOLD]; push_neg; linarith),
     if_neg (by simp only [OVERPRESSURE_ALERT]; push_neg; linarith)]

lemma mileageAnalysis_high (m : ℚ) (h : HIGH_MILEAGE_THRESHOLD < m) :
    mileageAnalysis m = (2, ["END OF SERVICE LIFE"]) := by
  unfold mileageAnalysis
  rw [if_pos h]

lemma mileageAnalysis_nominal (m : ℚ) (h : m ≤ MILEAGE_ALERT_THRESHOLD) :
    mileageAnalysis m = (0, []) := by
  simp only [MILEAGE_ALERT_THRESHOLD] at h
  unfold mileageAnalysis
  rw [if_neg (by simp only [HIGH_MILEAGE_THRESHOLD]; push_neg; linarith),
     if_neg (by simp only [MILEAGE_ALERT_THRESHOLD]; push_neg; linarith)]

lemma tempAnalysis_critical (t : ℚ) (h : CRITICAL_TEMP_THRESHOLD < t) :
    tempAnalysis t = (3, ["CRITICAL TEMPERATURE - RUBBER DEGRADATION"]) := by
  unfold tempAnalysis
  rw [if_pos h]

lemma tempAnalysis_nominal (t : ℚ) (h : t ≤ TEMP_ALERT_THRESHOLD) :
    tempAnalysis t = (0, []) := by
  simp only [TEMP_ALERT_THRESHOLD] at h
  unfold tempAnalysis
  rw [if_neg (by simp only [CRITICAL_TEMP_THRESHOLD]; push_neg; linarith),
     if_neg (by simp only [TEMP_ALERT_THRESHOLD]; push_neg; linarith)]

/-- When the accumulated critical-issue list is non-empty the classifier
takes the first bucket: the color is red and the label starts with
CRITICAL, in both inner branches. -/
lemma predict_red_of_issues (p m t : ℚ)
    (h : (pressureAnalysis p).2 ++ (mileageAnalysis m).2 ++ (tempAnalysis t).2 ≠ []) :
    (predict_wear_and_status p m t).2.1 = "red" ∧
      ∃ rest, (predict_wear_and_status p m t).1 = "CRITICAL" ++ rest := by
  simp only [predict_wear_and_status]
  rw [if_pos (Or.inr h)]
  split
  · exact ⟨rfl, ": IMMINENT FAILURE RISK", by decide⟩
  · exact ⟨rfl, ": MULTIPLE FAILURE FACTORS", by decide⟩

/-- Claim C1, counterexample: a reading with pressure 39.0 satisfies all
of the claim's premises (pressure at or above 30.0, temperature at most
70.0, mileage under 35000) yet is classified red, not green: 39.0 is
above the over-inflation threshold 38.0. -/
theorem pressure_ge_optimal_not_normal_cx :
    (30 : ℚ) ≤ 39 ∧ (52.5 : ℚ) ≤ 70 ∧ (18500 : ℚ) < 35000 ∧
      (predict_wear_and_status 39 18500 52.5).2.1 ≠ "green" ∧
      (predict_wear_and_status 39 18500 52.5).1 ≠ "NORMAL OPERATING STATE" := by
  norm_num [predict_wear_and_status, pressureAnalysis, mileageAnalysis, tempAnalysis,
    WEAR_THRESHOLD_PRESSURE, OVERPRESSURE_THRESHOLD, PRESSURE_ALERT_THRESHOLD,
    OVERPRESSURE_ALERT, HIGH_MILEAGE_THRESHOLD, MILEAGE_ALERT_THRESHOLD,
    CRITICAL_TEMP_THRESHOLD, TEMP_ALERT_THRESHOLD] <;> decide

/-- Claim C1, amended: for every reading whose pressure lies between
30.0 and 36.0 PSI (at or above the optimal range but not above the
over-pressure alert threshold), whose temperature is at most 70.0 °C
and whose mileage is below 35000 km, `predict_wear_and_status` returns
the normal severity (label NORMAL OPERATING STATE, color green). -/
theorem normal_state_of_inrange (p m t : ℚ)
    (hp1 : 30 ≤ p) (hp2 : p ≤ 36) (ht : t ≤ 70) (hm : m < 35000) :
    predict_wear_and_status p m t = ("NORMAL OPERATING STATE", "green", "✅") := by
  have hpa : pressureAnalysis p = (0, []) := by
    apply pressureAnalysis_nominal <;>
      simp only [PRESSURE_ALERT_THRESHOLD, OVERPRESSURE_ALERT] <;> linarith
  have hma : mileageAnalysis m = (0, []) := by
    apply mileageAnalysis_nominal
    simp only [MILEAGE_ALERT_THRESHOLD]
    linarith
  have hta : tempAnalysis t = (0, []) := by
    apply tempAnalysis_nominal
    simp only [TEMP_ALERT_THRESHOLD]
    linarith
  simp only [predict_wear_and_status, hpa, hma, hta]
  norm_num

/-- Witness for the amended claim C1 at the concrete reading
(32 PSI, 10000 km, 50 °C). -/
theorem normal_state_of_inrange_witness :
    ((30 : ℚ) ≤ 32 ∧ (32 : ℚ) ≤ 36 ∧ (50 : ℚ) ≤ 70 ∧ (10000 : ℚ) < 35000) ∧
      predict_wear_and_status 32 10000 50 = ("NORMAL OPERATING STATE", "green", "✅") :=
  ⟨by norm_num, normal_state_of_inrange 32 10000 50 (by norm_num) (by norm_num)
    (by norm_num) (by norm_num)⟩

/-- Claim C2: with mileage and temperature held fixed, for two pressures
p2 < p1 both below the critical under-inflation threshold 28.0, the
severity tier (green 0 < yellow 1 < orange 2 < red 3) of the result at
the lower pressure p2 is at least the tier at p1: decreasing pressure
below the critical threshold never decreases severity. -/
theorem severity_antitone_below_critical_pressure (m t p1 p2 : ℚ)
    (_h12 : p2 < p1) (_h1 : p1 < WEAR_THRESHOLD_PRESSURE) (h2 : p2 < WEAR_THRESHOLD_PRESSURE) :
    severityTier ((predict_wear_and_status p1 m t).2.1) ≤
      severityTier ((predict_wear_and_status p2 m t).2.1) := by
  have hne : (pressureAnalysis p2).2 ++ (mileageAnalysis m).2 ++ (tempAnalysis t).2 ≠ [] := by
    rw [pressureAnalysis_under p2 h2]
    simp
  have hred := (predict_red_of_issues p2 m t hne).1
  rw [hred]
  have h3 : severityTier "red" = 3 := by decide
  rw [h3]
  exact severityTier_le_three _

/-- Witness for claim C2 at mileage 10000, temperature 50, pressures
27.5 and 26. -/
theorem severity_antitone_below_critical_pressure_witness :
    ((26 : ℚ) < 27.5 ∧ (27.5 : ℚ) < WEAR_THRESHOLD_PRESSURE ∧
        (26 : ℚ) < WEAR_THRESHOLD_PRESSURE) ∧
      severityTier ((predict_wear_and_status 27.5 10000 50).2.1) ≤
        severityTier ((predict_wear_and_status 26 10000 50).2.1) :=
  ⟨by norm_num [WEAR_THRESHOLD_PRESSURE], severity_antitone_below_critical_pressure 10000 50 27.5 26
    (by norm_num) (by norm_num [WEAR_THRESHOLD_PRESSURE]) (by norm_num [WEAR_THRESHOLD_PRESSURE])⟩

/-- Claim C3, counterexample: at the reading (25.0 PSI, 45000 km,
90.0 °C) the classifier does not return the label CRITICAL: IMMINENT
FAILURE RISK, because the Python membership tests
`"BLOWOUT RISK" in critical_issues` and
`"RUBBER DEGRADATION" in critical_issues` compare whole list elements
and no appended issue string equals either of them. -/
theorem classify_critical_example_label_cx :
    (predict_wear_and_status 25 45000 90).1 ≠ "CRITICAL: IMMINENT FAILURE RISK" := by
  norm_num [predict_wear_and_status, pressureAnalysis, mileageAnalysis, tempAnalysis,
    WEAR_THRESHOLD_PRESSURE, OVERPRESSURE_THRESHOLD, PRESSURE_ALERT_THRESHOLD,
    OVERPRESSURE_ALERT, HIGH_MILEAGE_THRESHOLD, MILEAGE_ALERT_THRESHOLD,
    CRITICAL_TEMP_THRESHOLD, TEMP_ALERT_THRESHOLD] <;> decide

/-- Claim C3, amended: `predict_wear_and_status`(25.0, 45000, 90.0), with
all three dimensions violated, returns a critical red result, whose
label is CRITICAL: MULTIPLE FAILURE FACTORS (the IMMINENT FAILURE
branch is unreachable since the membership tests never match). -/
theorem classify_critical_example_eval :
    predict_wear_and_status 25 45000 90 = ("CRITICAL: MULTIPLE FAILURE FACTORS", "red", "🚨") := by
  norm_num [predict_wear_and_status, pressureAnalysis, mileageAnalysis, tempAnalysis,
    WEAR_THRESHOLD_PRESSURE, OVERPRESSURE_THRESHOLD, PRESSURE_ALERT_THRESHOLD,
    OVERPRESSURE_ALERT, HIGH_MILEAGE_THRESHOLD, MILEAGE_ALERT_THRESHOLD,
    CRITICAL_TEMP_THRESHOLD, TEMP_ALERT_THRESHOLD] <;> decide

/-- Claim C4: the default dashboard inputs (32.2 PSI, 18500 km,
52.5 °C) accumulate zero risk factors and classify as NORMAL
OPERATING STATE. -/
theorem default_inputs_normal :
    predict_wear_and_status 32.2 18500 52.5 = ("NORMAL OPERATING STATE", "green", "✅") := by
  norm_num [predict_wear_and_status, pressureAnalysis, mileageAnalysis, tempAnalysis,
    WEAR_THRESHOLD_PRESSURE, OVERPRESSURE_THRESHOLD, PRESSURE_ALERT_THRESHOLD,
    OVERPRESSURE_ALERT, HIGH_MILEAGE_THRESHOLD, MILEAGE_ALERT_THRESHOLD,
    CRITICAL_TEMP_THRESHOLD, TEMP_ALERT_THRESHOLD] <;> decide

/-- Claim C7, counterexample: at the exact boundary reading (28.0 PSI,
35000.0 km, 75.0 °C) the classifier does not return NORMAL OPERATING
STATE: pressure exactly 28.0 escapes the critical branch but falls into
the under-inflation alert branch (28.0 < 29.0), adding 2 risk points. -/
theorem boundary_example_not_normal_cx :
    (predict_wear_and_status 28 35000 75).1 ≠ "NORMAL OPERATING STATE" := by
  norm_num [predict_wear_and_status, pressureAnalysis, mileageAnalysis, tempAnalysis,
    WEAR_THRESHOLD_PRESSURE, OVERPRESSURE_THRESHOLD, PRESSURE_ALERT_THRESHOLD,
    OVERPRESSURE_ALERT, HIGH_MILEAGE_THRESHOLD, MILEAGE_ALERT_THRESHOLD,
    CRITICAL_TEMP_THRESHOLD, TEMP_ALERT_THRESHOLD] <;> decide

/-- Claim C7, amended: all threshold comparisons are strict, so a value
exactly at a critical threshold never triggers that threshold's own
contribution: pressure exactly 28.0 or 38.0, mileage exactly 40000.0
and temperature exactly 85.0 append no critical issue, and mileage
exactly 35000.0 and temperature exactly 75.0 add no risk at all; but
the critical boundaries fall through into the next alert tier
(risk points 2, 2, 1 and 2 respectively), so
`predict_wear_and_status`(28.0, 35000.0, 75.0) returns WARNING:
ELEVATED RISK rather than NORMAL OPERATING STATE. -/
theorem boundary_strictness_eval :
    pressureAnalysis 28 = (2, []) ∧ pressureAnalysis 38 = (2, []) ∧
      mileageAnalysis 40000 = (1, []) ∧ tempAnalysis 85 = (2, []) ∧
      mileageAnalysis 35000 = (0, []) ∧ tempAnalysis 75 = (0, []) ∧
      predict_wear_and_status 28 35000 75 = ("WARNING: ELEVATED RISK", "yellow", "🔶") := by
  norm_num [predict_wear_and_status, pressureAnalysis, mileageAnalysis, tempAnalysis,
    WEAR_THRESHOLD_PRESSURE, OVERPRESSURE_THRESHOLD, PRESSURE_ALERT_THRESHOLD,
    OVERPRESSURE_ALERT, HIGH_MILEAGE_THRESHOLD, MILEAGE_ALERT_THRESHOLD,
    CRITICAL_TEMP_THRESHOLD, TEMP_ALERT_THRESHOLD] <;> decide

/-- Claim C8: `predict_wear_and_status` is a deterministic pure function
of its three arguments: two evaluations at equal inputs return equal
(label, color, icon) triples. -/
theorem classifier_deterministic (p1 m1 t1 p2 m2 t2 : ℚ)
    (hp : p1 = p2) (hm : m1 = m2) (ht : t1 = t2) :
    predict_wear_and_status p1 m1 t1 = predict_wear_and_status p2 m2 t2 := by
  rw [hp, hm, ht]

/-- Witness for claim C8 at the reading (32 PSI, 1000 km, 50 °C). -/
theorem classifier_deterministic_witness :
    ((32 : ℚ) = 32 ∧ (1000 : ℚ) = 1000 ∧ (50 : ℚ) = 50) ∧
      predict_wear_and_status 32 1000 50 = predict_wear_and_status 32 1000 50 :=
  ⟨⟨rfl, rfl, rfl⟩, classifier_deterministic 32 1000 50 32 1000 50 rfl rfl rfl⟩

/-- Claim C9: any single critical violation (pressure below 28.0 or
above 38.0, mileage above 40000, or temperature above 85.0) appends a
critical issue and hence short-circuits to the top severity: the result
is red and its label starts with CRITICAL, regardless of the additive
risk-factor total. -/
theorem critical_violation_red (p m t : ℚ)
    (h : p < WEAR_THRESHOLD_PRESSURE ∨ OVERPRESSURE_THRESHOLD < p ∨
      HIGH_MILEAGE_THRESHOLD < m ∨ CRITICAL_TEMP_THRESHOLD < t) :
    (predict_wear_and_status p m t).2.1 = "red" ∧
      ∃ rest, (predict_wear_and_status p m t).1 = "CRITICAL" ++ rest := by
  apply predict_red_of_issues
  rcases h with h | h | h | h
  · rw [pressureAnalysis_under p h]
    simp
  · rw [pressureAnalysis_over p h]
    simp
  · rw [mileageAnalysis_high m h]
    simp
  · rw [tempAnalysis_critical t h]
    simp

/-- Witness for claim C9: mileage 45000 alone (with nominal pressure
and temperature) already yields a red CRITICAL result. -/
theorem critical_violation_red_witness :
    ((32 : ℚ) < WEAR_THRESHOLD_PRESSURE ∨ OVERPRESSURE_THRESHOLD < (32 : ℚ) ∨
        HIGH_MILEAGE_THRESHOLD < (45000 : ℚ) ∨ CRITICAL_TEMP_THRESHOLD < (50 : ℚ)) ∧
      ((predict_wear_and_status 32 45000 50).2.1 = "red" ∧
        ∃ rest, (predict_wear_and_status 32 45000 50).1 = "CRITICAL" ++ rest) :=
  ⟨Or.inr (Or.inr (Or.inl (by norm_num [HIGH_MILEAGE_THRESHOLD]))),
    critical_violation_red 32 45000 50 (Or.inr (Or.inr (Or.inl (by norm_num [HIGH_MILEAGE_THRESHOLD]))))⟩

/-- Round-half-to-even of a rational to an integer, the semantics of
Python's built-in `round`. -/
def roundHalfEven (q : ℚ) : ℤ :=
  if q - (Int.floor q : ℚ) < 1 / 2 then Int.floor q
  else if 1 / 2 < q - (Int.floor q : ℚ) then Int.floor q + 1
  else if Int.floor q % 2 = 0 then Int.floor q else Int.floor q + 1

/-- Python's `round(x, ndigits)` on the rational model of floats. -/
def pyRound (x : ℚ) (ndigits : ℕ) : ℚ :=
  (roundHalfEven (x * 10 ^ ndigits) : ℚ) / 10 ^ ndigits

lemma floor_le_roundHalfEven (q : ℚ) : Int.floor q ≤ roundHalfEven q := by
  unfold roundHalfEven
  split_ifs <;> omega

lemma roundHalfEven_le_floor_add_one (q : ℚ) : roundHalfEven q ≤ Int.floor q + 1 := by
  unfold roundHalfEven
  split_ifs <;> omega

lemma le_roundHalfEven (n : ℤ) (q : ℚ) (h : (n : ℚ) ≤ q) : n ≤ roundHalfEven q :=
  le_trans (Int.le_floor.mpr h) (floor_le_roundHalfEven q)

lemma roundHalfEven_le (n : ℤ) (q : ℚ) (h : q ≤ (n : ℚ)) : roundHalfEven q ≤ n := by
  have hf : Int.floor q ≤ n := by
    have h2 := Int.floor_le_floor h
    simpa using h2
  by_cases heq : Int.floor q = n
  · have hq : q - (Int.floor q : ℚ) < 1 / 2 := by
      rw [heq]
      linarith
    unfold roundHalfEven
    rw [if_pos hq]
    exact hf
  · have h2 := roundHalfEven_le_floor_add_one q
    omega

lemma le_pyRound_of_le (n : ℤ) (x : ℚ) (d : ℕ) (h : (n : ℚ) ≤ x) : (n : ℚ) ≤ pyRound x d := by
  have hpow : (0 : ℚ) < 10 ^ d := by positivity
  rw [pyRound, le_div_iff hpow]
  have h2 : ((n * 10 ^ d : ℤ) : ℚ) ≤ x * 10 ^ d := by
    push_cast
    exact mul_le_mul_of_nonneg_right h (le_of_lt hpow)
  have h3 : (n * 10 ^ d : ℤ) ≤ roundHalfEven (x * 10 ^ d) := le_roundHalfEven _ _ h2
  calc (n : ℚ) * 10 ^ d = ((n * 10 ^ d : ℤ) : ℚ) := by push_cast; ring
    _ ≤ (roundHalfEven (x * 10 ^ d) : ℚ) := by exact_mod_cast h3

lemma pyRound_le_of_le (n : ℤ) (x : ℚ) (d : ℕ) (h : x ≤ (n : ℚ)) : pyRound x d ≤ (n : ℚ) := by
  have hpow : (0 : ℚ) < 10 ^ d := by positivity
  rw [pyRound, div_le_iff hpow]
  have h2 : x * 10 ^ d ≤ ((n * 10 ^ d : ℤ) : ℚ) := by
    push_cast
    exact mul_le_mul_of_nonneg_right h (le_of_lt hpow)
  have h3 : roundHalfEven (x * 10 ^ d) ≤ (n * 10 ^ d : ℤ) := roundHalfEven_le _ _ h2
  calc (roundHalfEven (x * 10 ^ d) : ℚ) ≤ ((n * 10 ^ d : ℤ) : ℚ) := by exact_mod_cast h3
    _ = (n : ℚ) * 10 ^ d := by push_cast; ring

/-- One step's worth of random draws in `generate_simulation_data`:
`random.uniform(0.08, 0.25)` pressure wear, `random.uniform(-2, 4)`
temperature change, the conditional `random.uniform(1, 3)` and
`random.uniform(0.5, 2)` temperature boosts, and the
`random.uniform(250, 600)` mileage step. -/
structure Draws where
  pressureWear : ℚ
  tempChange : ℚ
  lowPressureBoost : ℚ
  oldTireBoost : ℚ
  mileageStep : ℚ

/-- The mutable loop state of `generate_simulation_data`:
`pressure_start`, `temp_start`, `mileage_start`. -/
structure SimState where
  pressure : ℚ
  temp : ℚ
  mileage : ℚ

/-- One iteration of the wear loop in `generate_simulation_data`
(`app.py` lines 145-162): updated state plus the appended row
(mileage, round(pressure, 2), round(temperature, 1)). -/
def simStep (s : SimState) (d : Draws) : SimState × (ℚ × ℚ × ℚ) :=
  let wear := if 25000 < s.mileage then d.pressureWear * (13 / 10) else d.pressureWear
  let p := s.pressure - wear
  let tc1 := if p < 30 then d.tempChange + d.lowPressureBoost else d.tempChange
  let tc2 := if 30000 < s.mileage then tc1 + d.oldTireBoost else tc1
  let t := max 30 (min 90 (s.temp + tc2))
  let m := s.mileage + d.mileageStep
  (⟨p, t, m⟩, (m, pyRound p 2, pyRound t 1))

/-- The `for i in range(150)` loop of `generate_simulation_data`, with
the break once the raw pressure drops below
`WEAR_THRESHOLD_PRESSURE - 2` or the raw temperature exceeds
`CRITICAL_TEMP_THRESHOLD + 5` (the broken step's row is appended
before the break). -/
def simLoop (draws : ℕ → Draws) : SimState → ℕ → ℕ → List (ℚ × ℚ × ℚ)
  | _, _, 0 => []
  | s, i, fuel + 1 =>
    let s2 := (simStep s (draws i)).1
    let row := (simStep s (draws i)).2
    if s2.pressure < WEAR_THRESHOLD_PRESSURE - 2 ∨ CRITICAL_TEMP_THRESHOLD + 5 < s2.temp then
      [row]
    else
      row :: simLoop draws s2 (i + 1) fuel

/-- `generate_simulation_data` of `app.py`, as a function of the
sequence of random draws: starts at pressure 33.5, temperature 55.0,
mileage 0, and runs at most 150 steps. -/
def generate_simulation_data (draws : ℕ → Draws) : List (ℚ × ℚ × ℚ) :=
  simLoop draws ⟨33.5, 55, 0⟩ 0 150

lemma simStep_temp_bounds (s : SimState) (d : Draws) :
    30 ≤ (simStep s d).1.temp ∧ (simStep s d).1.temp ≤ 90 := by
  obtain ⟨x, hx⟩ : ∃ x, (simStep s d).1.temp = max 30 (min 90 x) := ⟨_, rfl⟩
  rw [hx]
  exact ⟨le_max_left _ _, max_le (by norm_num) (min_le_left _ _)⟩

lemma simLoop_length_le (draws : ℕ → Draws) (fuel : ℕ) :
    ∀ s i, (simLoop draws s i fuel).length ≤ fuel := by
  induction fuel with
  | zero =>
    intro s i
    simp [simLoop]
  | succ n ih =>
    intro s i
    simp only [simLoop]
    split
    · simp
    · simp only [List.length_cons]
      have h2 := ih (simStep s (draws i)).1 (i + 1)
      omega

lemma simLoop_pre_break (draws : ℕ → Draws) (fuel : ℕ) :
    ∀ s i j, j + 1 < (simLoop draws s i fuel).length →
      26 ≤ ((simLoop draws s i fuel).getD j (0, 0, 0)).2.1 ∧
        ((simLoop draws s i fuel).getD j (0, 0, 0)).2.2 ≤ 90 := by
  induction fuel with
  | zero =>
    intro s i j h
    simp [simLoop] at h
  | succ n ih =>
    intro s i j h
    simp only [simLoop] at h ⊢
    by_cases hc : (simStep s (draws i)).1.pressure < WEAR_THRESHOLD_PRESSURE - 2 ∨
        CRITICAL_TEMP_THRESHOLD + 5 < (simStep s (draws i)).1.temp
    · rw [if_pos hc] at h
      simp at h
    · rw [if_neg hc] at h ⊢
      push_neg at hc
      obtain ⟨hp, ht⟩ := hc
      cases j with
      | zero =>
        rw [List.getD_cons_zero]
        constructor
        · show (26 : ℚ) ≤ pyRound (simStep s (draws i)).1.pressure 2
          have h26 : ((26 : ℤ) : ℚ) ≤ (simStep s (draws i)).1.pressure := by
            simp only [WEAR_THRESHOLD_PRESSURE] at hp
            push_cast
            linarith
          exact_mod_cast le_pyRound_of_le 26 _ 2 h26
        · show pyRound (simStep s (draws i)).1.temp 1 ≤ (90 : ℚ)
          have h90 : (simStep s (draws i)).1.temp ≤ ((90 : ℤ) : ℚ) := by
            simp only [CRITICAL_TEMP_THRESHOLD] at ht
            push_cast
            linarith
          exact_mod_cast pyRound_le_of_le 90 _ 1 h90
      | succ k =>
        rw [List.getD_cons_succ]
        apply ih
        simp only [List.length_cons] at h
        omega

lemma simLoop_temp_range (draws : ℕ → Draws) (fuel : ℕ) :
    ∀ s i row, row ∈ simLoop draws s i fuel → 30 ≤ row.2.2 ∧ row.2.2 ≤ 90 := by
  induction fuel with
  | zero =>
    intro s i row h
    simp [simLoop] at h
  | succ n ih =>
    intro s i row h
    simp only [simLoop] at h
    have hbounds : 30 ≤ ((simStep s (draws i)).2).2.2 ∧ ((simStep s (draws i)).2).2.2 ≤ 90 := by
      obtain ⟨h1, h2⟩ := simStep_temp_bounds s (draws i)
      constructor
      · show (30 : ℚ) ≤ pyRound (simStep s (draws i)).1.temp 1
        have h30 : ((30 : ℤ) : ℚ) ≤ (simStep s (draws i)).1.temp := by
          push_cast
          linarith
        exact_mod_cast le_pyRound_of_le 30 _ 1 h30
      · show pyRound (simStep s (draws i)).1.temp 1 ≤ (90 : ℚ)
        have h90 : (simStep s (draws i)).1.temp ≤ ((90 : ℤ) : ℚ) := by
          push_cast
          linarith
        exact_mod_cast pyRound_le_of_le 90 _ 1 h90
    by_cases hc : (simStep s (draws i)).1.pressure < WEAR_THRESHOLD_PRESSURE - 2 ∨
        CRITICAL_TEMP_THRESHOLD + 5 < (simStep s (draws i)).1.temp
    · rw [if_pos hc] at h
      rw [List.mem_singleton] at h
      rw [h]
      exact hbounds
    · rw [if_neg hc] at h
      rcases List.mem_cons.mp h with h1 | h1
      · rw [h1]
        exact hbounds
      · exact ih _ _ _ h1

lemma simLoop_succ (draws : ℕ → Draws) (s : SimState) (i n : ℕ) :
    simLoop draws s i (n + 1) =
      if (simStep s (draws i)).1.pressure < WEAR_THRESHOLD_PRESSURE - 2 ∨
          CRITICAL_TEMP_THRESHOLD + 5 < (simStep s (draws i)).1.temp then
        [(simStep s (draws i)).2]
      else
        (simStep s (draws i)).2 :: simLoop draws (simStep s (draws i)).1 (i + 1) n := rfl

/-- Claim C5: for every sequence of random draws the generated series
has at most 150 elements, and every element other than the last was
appended by a step that did not break: its (rounded) pressure is at
least 26.0 = WEAR_THRESHOLD_PRESSURE - 2 and its (rounded) temperature
is at most 90.0 = CRITICAL_TEMP_THRESHOLD + 5; once a step crosses a
failure threshold no further element is generated. -/
theorem generator_length_and_pre_break (draws : ℕ → Draws) (i : ℕ)
    (h : i + 1 < (generate_simulation_data draws).length) :
    (generate_simulation_data draws).length ≤ 150 ∧
      26 ≤ ((generate_simulation_data draws).getD i (0, 0, 0)).2.1 ∧
      ((generate_simulation_data draws).getD i (0, 0, 0)).2.2 ≤ 90 := by
  simp only [generate_simulation_data] at h ⊢
  exact ⟨simLoop_length_le draws 150 _ 0, simLoop_pre_break draws 150 _ 0 i h⟩

/-- Concrete draw sequence used to witness claim C5: a small first wear
step, then a large one that breaks the loop at the second step. -/
def c5draws : ℕ → Draws :=
  fun i => if i = 0 then ⟨1 / 2, 0, 0, 0, 300⟩ else ⟨10, 0, 0, 0, 300⟩

/-- Witness for claim C5: on `c5draws` the series is
[(300, 33, 55), (600, 23, 55)], so its first element is not last and
satisfies the pre-break bounds. -/
theorem generator_length_and_pre_break_witness :
    0 + 1 < (generate_simulation_data c5draws).length ∧
      ((generate_simulation_data c5draws).length ≤ 150 ∧
        26 ≤ ((generate_simulation_data c5draws).getD 0 (0, 0, 0)).2.1 ∧
        ((generate_simulation_data c5draws).getD 0 (0, 0, 0)).2.2 ≤ 90) := by
  have e : generate_simulation_data c5draws = [(300, 33, 55), (600, 23, 55)] := by
    rw [generate_simulation_data, show (150 : ℕ) = 149 + 1 from rfl, simLoop_succ]
    norm_num [c5draws, simStep, pyRound, roundHalfEven,
      WEAR_THRESHOLD_PRESSURE, CRITICAL_TEMP_THRESHOLD]
    rw [show (149 : ℕ) = 148 + 1 from rfl, simLoop_succ]
    norm_num [c5draws, simStep, pyRound, roundHalfEven,
      WEAR_THRESHOLD_PRESSURE, CRITICAL_TEMP_THRESHOLD]
  have hlen : 0 + 1 < (generate_simulation_data c5draws).length := by
    rw [e]
    norm_num
  exact ⟨hlen, generator_length_and_pre_break c5draws 0 hlen⟩

/-- Claim C6: every temperature value appended by
`generate_simulation_data` lies in [30, 90]: the per-step temperature
update is clamped with max(30, min(90, ...)) before being rounded. -/
theorem generator_temp_bounded (draws : ℕ → Draws) (row : ℚ × ℚ × ℚ)
    (h : row ∈ generate_simulation_data draws) :
    30 ≤ row.2.2 ∧ row.2.2 ≤ 90 := by
  simp only [generate_simulation_data] at h
  exact simLoop_temp_range draws 150 _ 0 row h

/-- Concrete draw sequence used to witness claim C6: a wear step so
large that the loop breaks at the first step. -/
def c6draws : ℕ → Draws :=
  fun _ => ⟨10, 0, 0, 0, 300⟩

/-- Witness for claim C6: on `c6draws` the series is the single row
(300, 47/2, 55), whose temperature 55 lies in [30, 90]. -/
theorem generator_temp_bounded_witness :
    ((300 : ℚ), (47 / 2 : ℚ), (55 : ℚ)) ∈ generate_simulation_data c6draws ∧
      (30 ≤ (((300 : ℚ), (47 / 2 : ℚ), (55 : ℚ)) : ℚ × ℚ × ℚ).2.2 ∧
        (((300 : ℚ), (47 / 2 : ℚ), (55 : ℚ)) : ℚ × ℚ × ℚ).2.2 ≤ 90) := by
  have e : generate_simulation_data c6draws = [(300, 47 / 2, 55)] := by
    rw [generate_simulation_data, show (150 : ℕ) = 149 + 1 from rfl, simLoop_succ]
    norm_num [c6draws, simStep, pyRound, roundHalfEven,
      WEAR_THRESHOLD_PRESSURE, CRITICAL_TEMP_THRESHOLD]
  have hmem : ((300 : ℚ), (47 / 2 : ℚ), (55 : ℚ)) ∈ generate_simulation_data c6draws := by
    rw [e]
    simp
  exact ⟨hmem, generator_temp_bounded c6draws _ hmem⟩

/-- The training feature column names of `train_model` in
`pages/1_Digital_Twin_Dashboard.py` (line 99). -/
def train_model_features : List String :=
  ["Mileage (km)", "Pressure (PSI)", "Temperature (C)", "Vibration (Hz)"]

/-- The column names of the `input_data` DataFrame built from the
sliders in `pages/1_Digital_Twin_Dashboard.py` (lines 135-140); note
the missing closing parenthesis in the first name. -/
def input_data_columns : List String :=
  ["Mileage (km", "Pressure (PSI)", "Temperature (C)", "Vibration (Hz)"]

/-- Model of scikit-learn's predict-time feature-name validation: an
estimator fitted on a named-column DataFrame records the training
column names, and `predict` raises a ValueError instead of returning a
classification when the input DataFrame's column names differ from
them. -/
def model_predict (fittedFeatures inputCols : List String) : Except String Unit :=
  if inputCols = fittedFeatures then Except.ok ()
  else Except.error "ValueError: the feature names should match those that were passed during fit"

/-- Claim C10: the dashboard page's prediction input is built with the
column name Mileage (km — missing the closing parenthesis — so its
column list differs from the fitted feature names and
`model.predict(input_data)` raises rather than returning a
classification. -/
theorem dashboard_feature_mismatch :
    input_data_columns ≠ train_model_features ∧
      model_predict train_model_features input_data_columns =
        Except.error
          "ValueError: the feature names should match those that were passed during fit" := by
  constructor
  · decide
  · rw [model_predict, if_neg (by decide)]

end DigitalTwin
